import Mathlib

/-!
Shallow embedding of `timesketch/lib/analyzers/interface.py` (the analyzer
interface of the timesketch repository): the `Event`, `Sketch` and
`BaseAnalyzer` abstractions, the mutation-queue effect trace, and the
flush-on-completion decorator.

Python dynamic values are embedded by a two-level value type: `Field` for the
leaf values stored inside a document body, and `Val` for the dynamic values a
raw search hit can map a key to (strings for `_id`/`_type`/`_index`, a document
body for `_source`, and the Python `None` object). Side effects against the
Elasticsearch datastore are recorded as a trace of `Op` values; the relational
store is explicit state (`RelDB`). A Python method that can raise is embedded
as a function returning its effect trace together with an `Except PyErr`
outcome, so that the effects performed before a raise stay observable.
-/

namespace Timesketch

/-- Leaf values stored inside a document body (the values of `_source` and of
update mappings sent to `import_event`). -/
inductive Field where
  | none
  | str (s : String)
  | int (n : Int)
  | strList (xs : List String)
deriving DecidableEq, Repr

/-- A document body: a Python dict from field name to leaf value. -/
abbrev Doc := List (String × Field)

/-- Dynamic values a raw search hit can hold: the Python `None` object, a
string, or a nested document (the `_source` body). -/
inductive Val where
  | none
  | str (s : String)
  | doc (d : Doc)
deriving DecidableEq, Repr

/-- A raw search hit, a Python dict. -/
abbrev RawHit := List (String × Val)

/-- Python `dict.get(k)` on a raw hit: the stored value when the key is
present, the `None` object otherwise. It never raises `KeyError`. -/
def pyGet (d : RawHit) (k : String) : Val :=
  ((d.find? (fun kv => kv.1 == k)).map Prod.snd).getD Val.none

/-- Python `dict.get(k, dflt)` on a document body. -/
def pyGetD (d : Doc) (k : String) (dflt : Field) : Field :=
  ((d.find? (fun kv => kv.1 == k)).map Prod.snd).getD dflt

/-- Python truthiness of an optional integer: `None` and `0` are falsy, every
other integer is truthy. -/
def pyTruthyOptInt : Option Int → Bool
  | Option.none => false
  | Option.some n => n != 0

/-- Python truthiness of an optional string: `None` and `""` are falsy. -/
def pyTruthyOptStr : Option String → Bool
  | Option.none => false
  | Option.some s => s != ""

/-- The Python exceptions the interface can raise. -/
inductive PyErr where
  | keyError (msg : String)
  | runtimeError (msg : String)
  | valueError (msg : String)
  | typeError (msg : String)
  | attributeError (msg : String)
  | notImplementedError
deriving DecidableEq, Repr

/-- The state of an `Event` handle after `__init__`: the four fields read from
the raw hit via `dict.get`, plus the optional bound `sketch_id`. -/
structure EventHandle where
  event_id : Val
  event_type : Val
  index_name : Val
  source : Val
  sketch_id : Option Int
deriving DecidableEq, Repr

/-- One observable side effect against the Elasticsearch datastore or the
relational session: an enqueued partial update (`import_event`), a `set_label`
call, a queue flush, an index refresh, a streaming search, a relational
commit, or the yield of one event from the stream generator. -/
inductive Op where
  | importEvent (index ty id : Val) (fields : Doc)
  | setLabel (index id ty : Val) (sketchId userId : Int) (label : String) (toggle single : Bool)
  | flush
  | refresh (index : String)
  | search (query_string : String) (query_filter : Doc) (indices : List String) (return_fields : String)
  | relCommit
  | yieldEvent (e : EventHandle)
deriving DecidableEq, Repr

/-- The external Elasticsearch datastore collaborator, given by the results it
returns: what `set_label(...)` returns (or raises), and the raw hits a
streaming search produces. -/
structure Datastore where
  set_label_result : Val → Val → Val → Int → Int → String → Bool → Bool → Except PyErr Doc
  search_results : String → Doc → List String → String → List RawHit

/-- `Event.__init__` without the constructor's dead error branch: each of the
four identity fields is read with `dict.get`, which yields the `None` object
when the key is missing. -/
def Event.ofHit (event : RawHit) (sketch_id : Option Int) : EventHandle :=
  { event_id := pyGet event "_id"
    event_type := pyGet event "_type"
    index_name := pyGet event "_index"
    source := pyGet event "_source"
    sketch_id := sketch_id }

/-- `Event.__init__`. The body reads the four keys with `dict.get` inside a
try/except addressed at `KeyError`; `dict.get` returns `None` for a missing key
and never raises `KeyError`, so the except branch re-raising a "Malformed
event" error is unreachable and construction always succeeds. -/
def Event.init (event : RawHit) (sketch_id : Option Int) : Except PyErr EventHandle :=
  Except.ok (Event.ofHit event sketch_id)

/-- `Event._update`: enqueue a partial-document update through
`datastore.import_event`. -/
def Event.updateOps (e : EventHandle) (fields : Doc) : List Op :=
  [Op.importEvent e.index_name e.event_type e.event_id fields]

/-- `Event.add_attributes`. -/
def Event.add_attributes (e : EventHandle) (attributes : Doc) : List Op :=
  Event.updateOps e attributes

/-- `Event.add_label`: raises `RuntimeError` when `self.sketch_id` is falsy;
otherwise calls `datastore.set_label` with the fixed user id 0 and
`single_update=False`, then enqueues the updated event it returned. -/
def Event.add_label (e : EventHandle) (ds : Datastore) (label : String) (toggle : Bool) :
    List Op × Except PyErr Unit :=
  if pyTruthyOptInt e.sketch_id = false then
    ([], Except.error (PyErr.runtimeError "No sketch_id provided."))
  else
    let user_id : Int := 0
    let sid : Int := e.sketch_id.getD 0
    let call := Op.setLabel e.index_name e.event_id e.event_type sid user_id label toggle false
    match ds.set_label_result e.index_name e.event_id e.event_type sid user_id label toggle false with
    | Except.error err => ([call], Except.error err)
    | Except.ok updated_event =>
        (call :: Event.updateOps e updated_event, Except.ok ())

/-- Python `list(set().union(a, b))`: a list holding each element of the two
inputs exactly once. CPython's iteration order over a hash set is unspecified;
this embedding fixes one order, and the theorems only use the element set and
the absence of duplicates. -/
def pySetUnion (a b : List String) : List String :=
  (a ++ b).dedup

/-- `Event.add_tags`: reads `self.source.get('tag', [])` from the in-memory
snapshot, unions it with `tags`, and enqueues the replacement `tag` field.
Raises `AttributeError` when the snapshot is not a document (e.g. the `None`
object) and `TypeError` when the stored `tag` field is not a list of strings,
mirroring what CPython would do on those dynamic values. -/
def Event.add_tags (e : EventHandle) (tags : List String) :
    Except PyErr (EventHandle × List Op) :=
  match e.source with
  | Val.doc d =>
      match pyGetD d "tag" (Field.strList []) with
      | Field.strList existing_tags =>
          let new_tags := pySetUnion existing_tags tags
          Except.ok (e, Event.updateOps e [("tag", Field.strList new_tags)])
      | _ => Except.error (PyErr.typeError "tag field is not a list of strings")
  | _ => Except.error (PyErr.attributeError "source has no attribute get")

/-- `Event.add_star`: `add_label` with the reserved star label, no toggle. -/
def Event.add_star (e : EventHandle) (ds : Datastore) : List Op × Except PyErr Unit :=
  Event.add_label e ds "__ts_star" false

/-- One relational comment row: its text and its author
(`SQLEvent.Comment(comment=comment, user=None)` sets the author to `None`). -/
structure CommentRow where
  text : String
  user : Option Int
deriving DecidableEq, Repr

/-- One relational `Event` row, keyed by the sketch row, the search-index row
and the document id, owning a list of comment rows. -/
structure RelEventRow where
  sketch : Option Int
  searchindex : Option Val
  document_id : Val
  comments : List CommentRow
deriving DecidableEq, Repr

/-- The relational store: the sketch ids that exist, the search-index rows
that exist (identified by index name), and the committed relational `Event`
rows. -/
structure RelDB where
  sketches : List Int
  searchindices : List Val
  events : List RelEventRow
deriving DecidableEq, Repr

/-- `SQLSketch.query.get(sketch_id)`: the sketch row when a row with that
primary key exists, `None` otherwise (also for a `None` key). -/
def RelDB.getSketch (db : RelDB) (sketch_id : Option Int) : Option Int :=
  sketch_id.bind (fun i => if db.sketches.contains i then Option.some i else Option.none)

/-- `SearchIndex.query.filter_by(index_name=...).first()`. -/
def RelDB.getSearchIndex (db : RelDB) (index_name : Val) : Option Val :=
  db.searchindices.find? (fun v => v == index_name)

/-- Key equality for relational `Event` rows: same sketch, same search index,
same document id. -/
def keyMatch (sk : Option Int) (si : Option Val) (did : Val) (r : RelEventRow) : Bool :=
  r.sketch == sk && r.searchindex == si && r.document_id == did

/-- `SQLEvent.get_or_create(sketch=..., searchindex=..., document_id=...)`:
the existing row for that key, or a fresh row with no comments. -/
def RelDB.get_or_create (db : RelDB) (sk : Option Int) (si : Option Val) (did : Val) :
    RelEventRow :=
  match db.events.find? (keyMatch sk si did) with
  | Option.some r => r
  | Option.none => { sketch := sk, searchindex := si, document_id := did, comments := [] }

/-- `db_session.add(db_event)` followed by `db_session.commit()`: the modified
row replaces the row with its key, or is inserted when that key is new. -/
def RelDB.putEvent (db : RelDB) (r : RelEventRow) : RelDB :=
  if db.events.any (keyMatch r.sketch r.searchindex r.document_id) then
    { db with events :=
        db.events.map (fun x => if keyMatch r.sketch r.searchindex r.document_id x then r else x) }
  else
    { db with events := db.events ++ [r] }

/-- The relational `Event` row `add_comment` builds: the row `get_or_create`
returns for the event's key, with one fresh comment row (author `None`)
appended. -/
def commentedRow (db : RelDB) (e : EventHandle) (c : String) : RelEventRow :=
  let db_event := db.get_or_create (db.getSketch e.sketch_id)
    (db.getSearchIndex e.index_name) e.event_id
  { db_event with comments := db_event.comments ++ [{ text := c, user := Option.none }] }

/-- `Event.add_comment`: looks up the sketch and search-index rows, gets or
creates the relational `Event` row for the document, appends one comment row
with author `None`, commits the relational transaction, and only then asserts
the reserved has-comment label through `add_label`. The code performs no
`sketch_id` precondition check of its own and never rolls the commit back:
the committed state is fixed before the label step runs, whatever that step's
outcome. -/
def Event.add_comment (e : EventHandle) (ds : Datastore) (db : RelDB) (c : String) :
    RelDB × List Op × Except PyErr Unit :=
  let db' := db.putEvent (commentedRow db e c)
  let labelStep := Event.add_label e ds "__ts_comment" false
  (db', Op.relCommit :: labelStep.1, labelStep.2)

/-- A persisted saved-view row, as `Sketch.add_view` creates it. -/
structure ViewRow where
  name : String
  sketch : Option Int
  user : Option Int
  query_string : Option String
  query_filter : Doc
  query_dsl : Option String
  searchtemplate : Option String
deriving DecidableEq, Repr

/-- Modelled from the spec: `View.validate_filter` lives in
`timesketch.models.sketch`, outside the analyzer interface source. The spec
calls it the View's own filter normalizer/validator and requires that a view
created with no filter is persisted with `query_filter == {}` (empty mapping
in, empty mapping out); validation returns the filter unchanged. -/
def View.validate_filter (f : Doc) : Doc := f

/-- `if not query_filter: query_filter = {}` — a missing or empty filter
becomes the empty mapping. -/
def effectiveViewFilter (query_filter : Option Doc) : Doc :=
  match query_filter with
  | Option.none => []
  | Option.some f => if f.isEmpty then [] else f

/-- `Sketch.add_view`: raises `ValueError` when `not query_string or
query_dsl` holds (query string falsy, or query DSL truthy); otherwise builds
the View row, replaces its filter by the validated filter, persists it and
returns it. `sql_sketch` is the sketch row the `Sketch` handle looked up at
construction. -/
def Sketch.add_view (sql_sketch : Option Int) (views : List ViewRow) (name : String)
    (query_string : Option String) (query_dsl : Option String)
    (query_filter : Option Doc) : List ViewRow × Except PyErr ViewRow :=
  let qf := effectiveViewFilter query_filter
  if !pyTruthyOptStr query_string || pyTruthyOptStr query_dsl then
    (views, Except.error (PyErr.valueError "query_string and query_dsl is missing."))
  else
    let view : ViewRow :=
      { name := name, sketch := sql_sketch, user := Option.none,
        query_string := query_string, query_filter := qf,
        query_dsl := query_dsl, searchtemplate := Option.none }
    let view := { view with query_filter := View.validate_filter qf }
    (views ++ [view], Except.ok view)

/-- The per-instance configuration of an analyzer: its bound index and its
optional bound sketch. -/
structure Analyzer where
  index_name : String
  sketch_id : Option Int
deriving DecidableEq, Repr

/-- `if not query_filter: query_filter = {}` in `event_stream`. -/
def effectiveFilter (query_filter : Option Doc) : Doc :=
  match query_filter with
  | Option.none => []
  | Option.some f => if f.isEmpty then [] else f

/-- `if not return_fields: return_fields = 'message'`. -/
def effectiveReturnFields (return_fields : Option String) : String :=
  match return_fields with
  | Option.none => "message"
  | Option.some s => if s == "" then "message" else s

/-- `if not indices: indices = [self.index_name]`. -/
def effectiveIndices (a : Analyzer) (indices : Option (List String)) : List String :=
  match indices with
  | Option.none => [a.index_name]
  | Option.some l => if l.isEmpty then [a.index_name] else l

/-- `BaseAnalyzer.event_stream`: applies the three defaults, refreshes every
index in the effective indices, executes the streaming search, and yields one
freshly constructed `Event` (bound to the same datastore and `sketch_id`) per
raw hit. The first component is the generator's effect trace in execution
order; the second is the sequence of yielded events. -/
def BaseAnalyzer.event_stream (ds : Datastore) (a : Analyzer) (query_string : String)
    (query_filter : Option Doc) (return_fields : Option String)
    (indices : Option (List String)) : List Op × List EventHandle :=
  let qf := effectiveFilter query_filter
  let rf := effectiveReturnFields return_fields
  let idx := effectiveIndices a indices
  let hits := ds.search_results query_string qf idx rf
  let events := hits.map (fun h => Event.ofHit h a.sketch_id)
  (idx.map Op.refresh ++ Op.search query_string qf idx rf :: events.map Op.yieldEvent,
   events)

/-- `_flush_datastore_decorator` applied to `run`, i.e. `run_wrapper`. The
wrapped `run` is given by its observable behavior: the effect trace it
produced and its outcome (normal return or raise). On normal return the
wrapper calls `flush_queued_events` once and returns the value unchanged; a
raise propagates and the flush line is never reached. -/
def run_wrapper {α : Type} (run : List Op × Except PyErr α) : List Op × Except PyErr α :=
  match run with
  | (ops, Except.ok v) => (ops ++ [Op.flush], Except.ok v)
  | (ops, Except.error e) => (ops, Except.error e)

/-- C1: when `run()` returns normally with value `v` after producing effect
trace `ops`, `run_wrapper()` flushes the MutationQueue exactly once, the
flush is the last effect (after everything `run()` did), and the wrapper
returns `run()`'s value unchanged. -/
theorem C1_run_wrapper_flushes_once_after_run {α : Type} (ops : List Op) (v : α) :
    run_wrapper (ops, Except.ok v) = (ops ++ [Op.flush], Except.ok v) ∧
    (run_wrapper (ops, Except.ok v)).1.count Op.flush = ops.count Op.flush + 1 ∧
    (run_wrapper (ops, Except.ok v)).1.drop ops.length = [Op.flush] := by
  refine ⟨rfl, ?_, ?_⟩
  · simp [run_wrapper]
  · simp [run_wrapper]

/-- C2: when `run()` raises exception `e` after producing effect trace `ops`,
`run_wrapper()` adds no flush call (the flush count of the trace is
unchanged, so `flush_queued_events` is never invoked by the wrapper) and the
exception propagates unchanged to the caller. -/
theorem C2_run_wrapper_no_flush_on_raise (ops : List Op) (e : PyErr) :
    run_wrapper (ops, (Except.error e : Except PyErr String)) = (ops, Except.error e) ∧
    (run_wrapper (ops, (Except.error e : Except PyErr String))).1.count Op.flush =
      ops.count Op.flush := by
  exact ⟨rfl, rfl⟩

/-- A raw search hit missing the `_source` key (but carrying `_id`, `_type`
and `_index`). -/
def hitMissingSource : RawHit :=
  [("_id", Val.str "1"), ("_type", Val.str "generic_event"),
   ("_index", Val.str "test_index")]

/-- C3: evaluating `Event.__init__` on a hit missing `_source` shows the code
does NOT raise: `dict.get` returns `None` for the missing key, the
`except KeyError` re-raise branch is dead, and construction succeeds with
`source = None` — contradicting the specified construction error naming
`_source`. -/
theorem C3_missing_source_no_construction_error :
    Event.init hitMissingSource (Option.some 1) =
      Except.ok
        { event_id := Val.str "1", event_type := Val.str "generic_event",
          index_name := Val.str "test_index", source := Val.none,
          sketch_id := Option.some 1 } := by
  rfl

/-- The element set of `pySetUnion a b` is the set union of the element sets
of `a` and `b`. -/
theorem pySetUnion_toFinset (a b : List String) :
    (pySetUnion a b).toFinset = a.toFinset ∪ b.toFinset := by
  ext s
  simp [pySetUnion, List.mem_dedup]

/-- C4: for an event whose in-memory source snapshot holds existing tags `T0`,
`add_tags(T1)` enqueues — via a single `import_event` call, with no other
effect and no re-fetch — a replacement `tag` field whose element set is
`T0 ∪ T1`, duplicate-free, and the same for any reordering of `T1`. -/
theorem C4_add_tags_enqueues_union (e : EventHandle) (d : Doc) (T0 T1 : List String)
    (hsrc : e.source = Val.doc d)
    (htag : pyGetD d "tag" (Field.strList []) = Field.strList T0) :
    ∃ L : List String,
      Event.add_tags e T1 =
        Except.ok (e, [Op.importEvent e.index_name e.event_type e.event_id
          [("tag", Field.strList L)]]) ∧
      L.toFinset = T0.toFinset ∪ T1.toFinset ∧
      L.Nodup ∧
      (∀ T1' : List String, T1'.toFinset = T1.toFinset →
        (pySetUnion T0 T1').toFinset = L.toFinset) := by
  refine ⟨pySetUnion T0 T1, ?_, pySetUnion_toFinset T0 T1, List.nodup_dedup _, ?_⟩
  · simp [Event.add_tags, hsrc, htag, Event.updateOps]
  · intro T1' h
    rw [pySetUnion_toFinset, pySetUnion_toFinset, h]

/-- A concrete event handle whose source snapshot carries the tag list
`["a"]`. -/
def eTagged : EventHandle :=
  { event_id := Val.str "1", event_type := Val.str "generic_event",
    index_name := Val.str "test_index",
    source := Val.doc [("tag", Field.strList ["a"])],
    sketch_id := Option.some 1 }

/-- Witness for C4 at a concrete input: existing tags `["a"]`, new tags
`["b", "a"]`. -/
theorem C4_add_tags_enqueues_union_witness :
    eTagged.source = Val.doc [("tag", Field.strList ["a"])] ∧
    pyGetD [("tag", Field.strList ["a"])] "tag" (Field.strList []) =
      Field.strList ["a"] ∧
    (∃ L : List String,
      Event.add_tags eTagged ["b", "a"] =
        Except.ok (eTagged, [Op.importEvent eTagged.index_name eTagged.event_type
          eTagged.event_id [("tag", Field.strList L)]]) ∧
      L.toFinset = (["a"] : List String).toFinset ∪ (["b", "a"] : List String).toFinset ∧
      L.Nodup ∧
      (∀ T1' : List String, T1'.toFinset = (["b", "a"] : List String).toFinset →
        (pySetUnion ["a"] T1').toFinset = L.toFinset)) :=
  ⟨rfl, rfl, C4_add_tags_enqueues_union eTagged _ ["a"] ["b", "a"] rfl rfl⟩

/-- C9: `add_tags` never mutates the event's in-memory source snapshot — the
handle after the call is the handle before it — so a second `add_tags(T2)`
after an `add_tags(T1)` enqueues a final tag set equal to `T0 ∪ T2`, computed
against the original snapshot: any element of `T1` outside `T0 ∪ T2` is
absent from the final enqueued set. -/
theorem C9_add_tags_snapshot_immutable (e : EventHandle) (d : Doc)
    (T0 T1 T2 : List String)
    (hsrc : e.source = Val.doc d)
    (htag : pyGetD d "tag" (Field.strList []) = Field.strList T0) :
    ∃ L1 L2 : List String,
      Event.add_tags e T1 =
        Except.ok (e, [Op.importEvent e.index_name e.event_type e.event_id
          [("tag", Field.strList L1)]]) ∧
      Event.add_tags e T2 =
        Except.ok (e, [Op.importEvent e.index_name e.event_type e.event_id
          [("tag", Field.strList L2)]]) ∧
      L2.toFinset = T0.toFinset ∪ T2.toFinset ∧
      (∀ s, s ∈ T1 → s ∉ T0 → s ∉ T2 → s ∉ L2) := by
  refine ⟨pySetUnion T0 T1, pySetUnion T0 T2, ?_, ?_, pySetUnion_toFinset T0 T2, ?_⟩
  · simp [Event.add_tags, hsrc, htag, Event.updateOps]
  · simp [Event.add_tags, hsrc, htag, Event.updateOps]
  · intro s _ hs0 hs2 hmem
    simp [pySetUnion, List.mem_dedup] at hmem
    rcases hmem with h | h
    · exact hs0 h
    · exact hs2 h

/-- Witness for C9 at a concrete input: original tags `["a"]`, first call
adds `["x"]`, second call adds `["b"]`; the final enqueued set is
`{"a", "b"}` and drops `"x"`. -/
theorem C9_add_tags_snapshot_immutable_witness :
    eTagged.source = Val.doc [("tag", Field.strList ["a"])] ∧
    pyGetD [("tag", Field.strList ["a"])] "tag" (Field.strList []) =
      Field.strList ["a"] ∧
    (∃ L1 L2 : List String,
      Event.add_tags eTagged ["x"] =
        Except.ok (eTagged, [Op.importEvent eTagged.index_name eTagged.event_type
          eTagged.event_id [("tag", Field.strList L1)]]) ∧
      Event.add_tags eTagged ["b"] =
        Except.ok (eTagged, [Op.importEvent eTagged.index_name eTagged.event_type
          eTagged.event_id [("tag", Field.strList L2)]]) ∧
      L2.toFinset = (["a"] : List String).toFinset ∪ (["b"] : List String).toFinset ∧
      (∀ s, s ∈ (["x"] : List String) → s ∉ (["a"] : List String) →
        s ∉ (["b"] : List String) → s ∉ L2)) :=
  ⟨rfl, rfl, C9_add_tags_snapshot_immutable eTagged _ ["a"] ["x"] ["b"] rfl rfl⟩

/-- Committing a row through `putEvent` leaves that row present in the
relational store. -/
theorem mem_putEvent (db : RelDB) (r : RelEventRow) : r ∈ (db.putEvent r).events := by
  unfold RelDB.putEvent
  by_cases h : db.events.any (keyMatch r.sketch r.searchindex r.document_id) = true
  · obtain ⟨x, hx, hk⟩ := List.any_eq_true.mp h
    simp only [h, if_true]
    exact List.mem_map.mpr ⟨x, hx, by simp [hk]⟩
  · simp only [h, if_false]
    simp

/-- C10: with `sketch_id` bound to the integer 0, `add_label` (and so
`add_star`) raises the same `RuntimeError` as with no `sketch_id` at all —
the guard tests Python falsiness, and 0 is falsy — with no effect enqueued. -/
theorem C10_sketch_id_zero_rejected (ds : Datastore) (e : EventHandle)
    (label : String) (toggle : Bool)
    (h : e.sketch_id = Option.some 0) :
    Event.add_label e ds label toggle =
      ([], Except.error (PyErr.runtimeError "No sketch_id provided.")) ∧
    Event.add_star e ds =
      ([], Except.error (PyErr.runtimeError "No sketch_id provided.")) ∧
    Event.add_label e ds label toggle =
      Event.add_label { e with sketch_id := Option.none } ds label toggle := by
  refine ⟨?_, ?_, ?_⟩ <;>
    simp [Event.add_label, Event.add_star, pyTruthyOptInt, h]

/-- A concrete event handle with `sketch_id = 0`. -/
def eSketchZero : EventHandle :=
  { event_id := Val.str "1", event_type := Val.str "generic_event",
    index_name := Val.str "test_index", source := Val.doc [],
    sketch_id := Option.some 0 }

/-- A concrete datastore whose `set_label` always succeeds with an empty
updated event and whose searches return no hits. -/
def dsOk : Datastore :=
  { set_label_result := fun _ _ _ _ _ _ _ _ => Except.ok []
    search_results := fun _ _ _ _ => [] }

/-- Witness for C10 at a concrete input. -/
theorem C10_sketch_id_zero_rejected_witness :
    eSketchZero.sketch_id = Option.some 0 ∧
    (Event.add_label eSketchZero dsOk "my_label" false =
      ([], Except.error (PyErr.runtimeError "No sketch_id provided.")) ∧
    Event.add_star eSketchZero dsOk =
      ([], Except.error (PyErr.runtimeError "No sketch_id provided.")) ∧
    Event.add_label eSketchZero dsOk "my_label" false =
      Event.add_label { eSketchZero with sketch_id := Option.none } dsOk "my_label" false) :=
  ⟨rfl, C10_sketch_id_zero_rejected dsOk eSketchZero "my_label" false rfl⟩

/-- A concrete event handle with no `sketch_id` bound. -/
def eNoSketch : EventHandle :=
  { event_id := Val.str "doc1", event_type := Val.str "generic_event",
    index_name := Val.str "test_index", source := Val.doc [],
    sketch_id := Option.none }

/-- An empty relational store. -/
def dbEmpty : RelDB :=
  { sketches := [], searchindices := [], events := [] }

/-- Counterexample to C6 as stated: with no `sketch_id` bound,
`add_comment("hello")` does end in the precondition `RuntimeError`, but only
after the comment row has been created and committed — the relational store
has gained a row holding the comment, so the error is not raised before every
mutation and the operation is not effect-free. -/
theorem C6_counterexample_add_comment_commits_before_error :
    (Event.add_comment eNoSketch dsOk dbEmpty "hello").2.2 =
      Except.error (PyErr.runtimeError "No sketch_id provided.") ∧
    (Event.add_comment eNoSketch dsOk dbEmpty "hello").1.events =
      [{ sketch := Option.none, searchindex := Option.none,
         document_id := Val.str "doc1",
         comments := [{ text := "hello", user := Option.none }] }] ∧
    dbEmpty.events = [] := by
  refine ⟨rfl, ?_, rfl⟩
  rfl

/-- C6 amended: a sketch-scoped operation with no `sketch_id` bound ends in
the precondition `RuntimeError`; `add_label` raises it before any mutation is
enqueued (empty effect trace), but `add_comment` raises it only through its
final `add_label` step, after the comment row has been appended and the
relational transaction committed — that committed row persists. -/
theorem C6_amended_no_sketch_id (ds : Datastore) (db : RelDB) (e : EventHandle)
    (label : String) (toggle : Bool) (c : String)
    (h : pyTruthyOptInt e.sketch_id = false) :
    Event.add_label e ds label toggle =
      ([], Except.error (PyErr.runtimeError "No sketch_id provided.")) ∧
    (Event.add_comment e ds db c).2.2 =
      Except.error (PyErr.runtimeError "No sketch_id provided.") ∧
    (Event.add_comment e ds db c).1 = db.putEvent (commentedRow db e c) ∧
    commentedRow db e c ∈ (Event.add_comment e ds db c).1.events ∧
    (Event.add_comment e ds db c).2.1 = [Op.relCommit] := by
  refine ⟨?_, ?_, rfl, mem_putEvent db (commentedRow db e c), ?_⟩
  · simp [Event.add_label, h]
  · simp [Event.add_comment, Event.add_label, h]
  · simp [Event.add_comment, Event.add_label, h]

/-- Witness for the amended C6 at a concrete input. -/
theorem C6_amended_no_sketch_id_witness :
    pyTruthyOptInt eNoSketch.sketch_id = false ∧
    (Event.add_label eNoSketch dsOk "my_label" false =
      ([], Except.error (PyErr.runtimeError "No sketch_id provided.")) ∧
    (Event.add_comment eNoSketch dsOk dbEmpty "hello").2.2 =
      Except.error (PyErr.runtimeError "No sketch_id provided.") ∧
    (Event.add_comment eNoSketch dsOk dbEmpty "hello").1 =
      dbEmpty.putEvent (commentedRow dbEmpty eNoSketch "hello") ∧
    commentedRow dbEmpty eNoSketch "hello" ∈
      (Event.add_comment eNoSketch dsOk dbEmpty "hello").1.events ∧
    (Event.add_comment eNoSketch dsOk dbEmpty "hello").2.1 = [Op.relCommit]) :=
  ⟨rfl, C6_amended_no_sketch_id dsOk dbEmpty eNoSketch "my_label" false "hello" rfl⟩

/-- C7: with a `sketch_id` bound, `add_comment(c)` appends exactly one new
comment row with author unset to the relational `Event` row for the document
(created fresh when absent) and commits it; the commit precedes the
`add_label` call asserting the reserved has-comment label, whose trace and
outcome follow it unchanged; and when that label step fails, the committed
comment row persists — no compensating rollback. -/
theorem C7_add_comment_commit_before_label (ds : Datastore) (db : RelDB)
    (e : EventHandle) (c : String)
    (h : pyTruthyOptInt e.sketch_id = true) :
    (Event.add_comment e ds db c).1 = db.putEvent (commentedRow db e c) ∧
    (commentedRow db e c).comments =
      (db.get_or_create (db.getSketch e.sketch_id) (db.getSearchIndex e.index_name)
        e.event_id).comments ++ [{ text := c, user := Option.none }] ∧
    commentedRow db e c ∈ (Event.add_comment e ds db c).1.events ∧
    (∃ rest, (Event.add_comment e ds db c).2.1 =
      Op.relCommit :: Op.setLabel e.index_name e.event_id e.event_type
        (e.sketch_id.getD 0) 0 "__ts_comment" false false :: rest) ∧
    (Event.add_comment e ds db c).2.2 =
      (Event.add_label e ds "__ts_comment" false).2 ∧
    (∀ err, (Event.add_label e ds "__ts_comment" false).2 = Except.error err →
      commentedRow db e c ∈ (Event.add_comment e ds db c).1.events) := by
  refine ⟨rfl, rfl, mem_putEvent db (commentedRow db e c), ?_, rfl,
    fun _ _ => mem_putEvent db (commentedRow db e c)⟩
  cases hsl : ds.set_label_result e.index_name e.event_id e.event_type
      (e.sketch_id.getD 0) 0 "__ts_comment" false false with
  | error err =>
      exact ⟨[], by simp [Event.add_comment, Event.add_label, h, hsl]⟩
  | ok updated_event =>
      exact ⟨Event.updateOps e updated_event,
        by simp [Event.add_comment, Event.add_label, h, hsl]⟩

/-- A concrete datastore whose `set_label` always fails. -/
def dsLabelFails : Datastore :=
  { set_label_result := fun _ _ _ _ _ _ _ _ =>
      Except.error (PyErr.runtimeError "datastore unavailable")
    search_results := fun _ _ _ _ => [] }

/-- A concrete event handle bound to sketch 1, over a document with no
relational row yet. -/
def eSketchOne : EventHandle :=
  { event_id := Val.str "doc1", event_type := Val.str "generic_event",
    index_name := Val.str "test_index", source := Val.doc [],
    sketch_id := Option.some 1 }

/-- Witness for C7 at a concrete input whose label step fails: the committed
comment row persists anyway. -/
theorem C7_add_comment_commit_before_label_witness :
    pyTruthyOptInt eSketchOne.sketch_id = true ∧
    ((Event.add_comment eSketchOne dsLabelFails dbEmpty "hello").1 =
      dbEmpty.putEvent (commentedRow dbEmpty eSketchOne "hello") ∧
    (commentedRow dbEmpty eSketchOne "hello").comments =
      (dbEmpty.get_or_create (dbEmpty.getSketch eSketchOne.sketch_id)
        (dbEmpty.getSearchIndex eSketchOne.index_name)
        eSketchOne.event_id).comments ++ [{ text := "hello", user := Option.none }] ∧
    commentedRow dbEmpty eSketchOne "hello" ∈
      (Event.add_comment eSketchOne dsLabelFails dbEmpty "hello").1.events ∧
    (∃ rest, (Event.add_comment eSketchOne dsLabelFails dbEmpty "hello").2.1 =
      Op.relCommit :: Op.setLabel eSketchOne.index_name eSketchOne.event_id
        eSketchOne.event_type (eSketchOne.sketch_id.getD 0) 0 "__ts_comment"
        false false :: rest) ∧
    (Event.add_comment eSketchOne dsLabelFails dbEmpty "hello").2.2 =
      (Event.add_label eSketchOne dsLabelFails "__ts_comment" false).2 ∧
    (∀ err, (Event.add_label eSketchOne dsLabelFails "__ts_comment" false).2 =
        Except.error err →
      commentedRow dbEmpty eSketchOne "hello" ∈
        (Event.add_comment eSketchOne dsLabelFails dbEmpty "hello").1.events)) :=
  ⟨rfl, C7_add_comment_commit_before_label dsLabelFails dbEmpty eSketchOne "hello" rfl⟩

/-- C5: `add_view` raises its `ValueError` exactly when it is not the case
that a query string is supplied (truthy) and no query DSL is supplied — so
DSL alone, both, or neither is rejected; and a call with only a query string
and no filter persists and returns a View whose query filter is the empty
mapping. -/
theorem C5_add_view_gate (sk : Option Int) (views : List ViewRow) (name : String)
    (qs qd : Option String) (qf : Option Doc) :
    ((∃ m, (Sketch.add_view sk views name qs qd qf).2 =
        Except.error (PyErr.valueError m)) ↔
      ¬(pyTruthyOptStr qs = true ∧ pyTruthyOptStr qd = false)) ∧
    (∀ s : String, s ≠ "" →
      ∃ v : ViewRow,
        Sketch.add_view sk views name (Option.some s) Option.none Option.none =
          (views ++ [v], Except.ok v) ∧
        v.query_filter = []) := by
  constructor
  · cases hqs : pyTruthyOptStr qs <;> cases hqd : pyTruthyOptStr qd <;>
      simp [Sketch.add_view, hqs, hqd]
  · intro s hs
    refine ⟨{ name := name, sketch := sk, user := Option.none,
              query_string := Option.some s, query_filter := [],
              query_dsl := Option.none, searchtemplate := Option.none }, ?_, rfl⟩
    simp [Sketch.add_view, effectiveViewFilter, View.validate_filter,
      pyTruthyOptStr, hs]

/-- Witness for C5 at concrete inputs: DSL alone is rejected, and a plain
query-string call persists a view with an empty filter. -/
theorem C5_add_view_gate_witness :
    ((∃ m, (Sketch.add_view (Option.some 1) [] "v" Option.none
        (Option.some "bar") Option.none).2 =
        Except.error (PyErr.valueError m)) ↔
      ¬(pyTruthyOptStr Option.none = true ∧
        pyTruthyOptStr (Option.some "bar") = false)) ∧
    (∀ s : String, s ≠ "" →
      ∃ v : ViewRow,
        Sketch.add_view (Option.some 1) [] "v" (Option.some s) Option.none
            Option.none =
          ([] ++ [v], Except.ok v) ∧
        v.query_filter = []) :=
  C5_add_view_gate (Option.some 1) [] "v" Option.none (Option.some "bar") Option.none

/-- C8: the effect trace of `event_stream` is the refreshes of every index in
the effective indices (the bound index when the argument is absent), then the
streaming search, then the yielded events — so every refresh precedes the
search and every yield, and each call issues its own refreshes. -/
theorem C8_event_stream_refreshes_before_search (ds : Datastore) (a : Analyzer)
    (qs : String) (qf : Option Doc) (rf : Option String)
    (idx : Option (List String)) :
    (BaseAnalyzer.event_stream ds a qs qf rf idx).1 =
      (effectiveIndices a idx).map Op.refresh ++
        Op.search qs (effectiveFilter qf) (effectiveIndices a idx)
          (effectiveReturnFields rf) ::
          (BaseAnalyzer.event_stream ds a qs qf rf idx).2.map Op.yieldEvent ∧
    effectiveIndices a Option.none = [a.index_name] ∧
    (∀ i ∈ effectiveIndices a idx,
      Op.refresh i ∈
        (BaseAnalyzer.event_stream ds a qs qf rf idx).1.take
          (effectiveIndices a idx).length) := by
  refine ⟨rfl, rfl, ?_⟩
  intro i hi
  have htake : (BaseAnalyzer.event_stream ds a qs qf rf idx).1.take
      (effectiveIndices a idx).length = (effectiveIndices a idx).map Op.refresh := by
    show (((effectiveIndices a idx).map Op.refresh) ++
        Op.search qs (effectiveFilter qf) (effectiveIndices a idx)
          (effectiveReturnFields rf) ::
          (BaseAnalyzer.event_stream ds a qs qf rf idx).2.map Op.yieldEvent).take
        (effectiveIndices a idx).length = _
    rw [show (effectiveIndices a idx).length =
        ((effectiveIndices a idx).map Op.refresh).length from
      (List.length_map _ _).symm]
    exact List.take_left _ _
  rw [htake]
  exact List.mem_map_of_mem _ hi

/-- A concrete analyzer bound to one index and sketch 1. -/
def aOne : Analyzer :=
  { index_name := "bound_index", sketch_id := Option.some 1 }

/-- Witness for C8 at a concrete input with the indices argument absent. -/
theorem C8_event_stream_refreshes_before_search_witness :
    ((BaseAnalyzer.event_stream dsOk aOne "q" Option.none Option.none
        Option.none).1 =
      (effectiveIndices aOne Option.none).map Op.refresh ++
        Op.search "q" (effectiveFilter Option.none)
          (effectiveIndices aOne Option.none)
          (effectiveReturnFields Option.none) ::
          (BaseAnalyzer.event_stream dsOk aOne "q" Option.none Option.none
            Option.none).2.map Op.yieldEvent ∧
    effectiveIndices aOne Option.none = [aOne.index_name] ∧
    (∀ i ∈ effectiveIndices aOne Option.none,
      Op.refresh i ∈
        (BaseAnalyzer.event_stream dsOk aOne "q" Option.none Option.none
          Option.none).1.take (effectiveIndices aOne Option.none).length)) ∧
    Op.refresh "bound_index" ∈
      (BaseAnalyzer.event_stream dsOk aOne "q" Option.none Option.none
        Option.none).1 :=
  ⟨C8_event_stream_refreshes_before_search dsOk aOne "q" Option.none Option.none
    Option.none, by simp [BaseAnalyzer.event_stream, effectiveIndices, dsOk, aOne]⟩

end Timesketch
